import Mathlib

/-!
Verification development for the wenyan-lsp language server core:
document store, sync controller, validator / error translator and the
completion engine, embedded shallowly from the server source.

Two variants of the server file exist in the repository and both are
embedded here:
- variant v0 reads the explicit `line` / `column` fields of a structured
  `WenyanError` (with JavaScript falsy-coalescing via `|| 0`);
- variant v1 recovers the position by scanning the error message for the
  first `第N行` / `第N列` marker, mirroring the regexes
  `/第(\d+)行/` and `/第(\d+)列/` (JavaScript `String.match` without the
  global flag: leftmost match, `\d+` greedy over ASCII digits).
-/

namespace WenyanLsp

/-- LSP position. Lines and characters are 0-based; modelled over `Int`
because the translation in the source can produce negative values. -/
structure Position where
  line : Int
  character : Int
deriving Repr, DecidableEq

/-- LSP range: start and end position. -/
structure Range where
  start : Position
  endPos : Position
deriving Repr, DecidableEq

/-- LSP diagnostic as constructed by the server.  The severity is the LSP
numeric code (`DiagnosticSeverity.Error = 1`). -/
structure Diagnostic where
  severity : Nat
  range : Range
  message : String
  source : String
deriving Repr, DecidableEq

/-- A failure raised by the external lexer/parser engine while validating:
either the engine's own structured error type `WenyanError` (message plus
optional 1-based line / column fields), or any other thrown value, whose
`message` may be absent. -/
inductive ExternalFailure where
  | wenyanError (message : String) (line column : Option Int)
  | other (message : Option String)
deriving Repr, DecidableEq

/-- The external lexer/parser collaborator: `tokenize` the full text, then
`parse` the token sequence; either stage may raise an `ExternalFailure`. -/
structure Engine (Token : Type) where
  tokenize : String → Except ExternalFailure (List Token)
  parse : List Token → Except ExternalFailure Unit

/-- Run both engine stages, short-circuiting on the first failure — the body
of the `try` block of `validateDocument`. -/
def runEngine {Token : Type} (eng : Engine Token) (text : String) :
    Except ExternalFailure Unit :=
  match eng.tokenize text with
  | .error e => .error e
  | .ok tokens =>
    match eng.parse tokens with
    | .error e => .error e
    | .ok _ => .ok ()

/-- JavaScript `x || d` for an optional string `x` (absent and the empty
string are falsy), as in `error.message || '未知错误'`. -/
def jsMessageOr (message : Option String) (d : String) : String :=
  match message with
  | none => d
  | some s => if s = "" then d else s

/-- Variant v0, `error.line - 1 || 0`: an absent field gives `NaN - 1`,
falsy, hence `0`; a present field `n` gives `n - 1` (when `n - 1 = 0` the
`|| 0` yields `0 = n - 1` as well, so the value is `n - 1` in every present
case, including negative results). -/
def toZeroBased (field : Option Int) : Int :=
  match field with
  | none => 0
  | some n => n - 1

/-- Variant v0, `error.column || 0`: absent and `0` are falsy and give `0`;
any other value (negative included) passes through. -/
def jsColumnOrZero (column : Option Int) : Int :=
  match column with
  | none => 0
  | some n => if n = 0 then 0 else n

/-- Variant v0 of the error translator: positions from the explicit fields
of a `WenyanError`; any other failure is anchored at document start with a
one-character range. -/
def translateError_v0 (e : ExternalFailure) : Diagnostic :=
  match e with
  | .wenyanError msg line column =>
    { severity := 1
      range :=
        { start := { line := toZeroBased line, character := toZeroBased column }
          endPos := { line := toZeroBased line, character := jsColumnOrZero column + 1 } }
      message := msg
      source := "wenyan-lsp" }
  | .other msg =>
    { severity := 1
      range := { start := { line := 0, character := 0 }, endPos := { line := 0, character := 1 } }
      message := jsMessageOr msg "未知错误"
      source := "wenyan-lsp" }

/-- Maximal leading run of ASCII digits, the greedy `\d+`. -/
def takeDigits (cs : List Char) : List Char :=
  match cs with
  | [] => []
  | c :: rest => if c.isDigit then c :: takeDigits rest else []

/-- Decimal value of a digit run, as `parseInt` on the captured group. -/
def digitsVal (ds : List Char) : Nat :=
  ds.foldl (fun acc c => acc * 10 + (c.toNat - 48)) 0

/-- Leftmost match of the pattern `第(\d+)` followed by `marker` (`行` or
`列`) in a character list, returning the captured number.  At a given `第`
the greedy `\d+` must be followed by `marker`; backtracking inside the digit
run cannot help (a shorter run is followed by a digit), so on failure the
scan resumes one character further, as `String.match` does. -/
def findMarker (marker : Char) (cs : List Char) : Option Nat :=
  match cs with
  | [] => none
  | c :: rest =>
    if c = '第' then
      let ds := takeDigits rest
      if ds.length ≠ 0 ∧ (rest.drop ds.length).head? = some marker then
        some (digitsVal ds)
      else findMarker marker rest
    else findMarker marker rest

/-- Number captured by `/第(\d+)行/`-style matching over a message string. -/
def matchNum (marker : Char) (msg : String) : Option Nat :=
  findMarker marker msg.toList

/-- Variant v1 of the error translator: positions recovered from the first
`第N行` / `第N列` markers of the message (`parseInt(m[1]) - 1`, defaulting
to `0` when a marker is absent); any other failure is anchored at document
start with a one-character range. -/
def translateError_v1 (e : ExternalFailure) : Diagnostic :=
  match e with
  | .wenyanError msg _ _ =>
    let line : Int :=
      match matchNum '行' msg with
      | some n => (n : Int) - 1
      | none => 0
    let column : Int :=
      match matchNum '列' msg with
      | some n => (n : Int) - 1
      | none => 0
    { severity := 1
      range :=
        { start := { line := line, character := column }
          endPos := { line := line, character := column + 1 } }
      message := msg
      source := "wenyan-lsp" }
  | .other msg =>
    { severity := 1
      range := { start := { line := 0, character := 0 }, endPos := { line := 0, character := 1 } }
      message := jsMessageOr msg "未知错误"
      source := "wenyan-lsp" }

/-- Validator, variant v0: empty diagnostics on success, one translated
diagnostic on failure. -/
def validateDocument_v0 {Token : Type} (eng : Engine Token) (text : String) :
    List Diagnostic :=
  match runEngine eng text with
  | .ok _ => []
  | .error e => [translateError_v0 e]

/-- Validator, variant v1 (regex recovery). -/
def validateDocument {Token : Type} (eng : Engine Token) (text : String) :
    List Diagnostic :=
  match runEngine eng text with
  | .ok _ => []
  | .error e => [translateError_v1 e]

/-- Server-side snapshot of an open document, as created by
`TextDocument.create(uri, languageId, version, text)`. -/
structure TextDocument where
  uri : String
  languageId : String
  version : Int
  text : String
deriving Repr, DecidableEq

/-- The document store `documents : Map<string, TextDocument>`, modelled as
an association list with unique keys. -/
abbrev DocStore := List (String × TextDocument)

/-- `documents.get(uri)`. -/
def storeGet (store : DocStore) (uri : String) : Option TextDocument :=
  match store with
  | [] => none
  | (k, v) :: rest => if k = uri then some v else storeGet rest uri

/-- `documents.set(uri, document)`: replaces the binding if the key is
present, otherwise appends it. -/
def storeSet (store : DocStore) (uri : String) (document : TextDocument) : DocStore :=
  match store with
  | [] => [(uri, document)]
  | (k, v) :: rest =>
    if k = uri then (uri, document) :: rest else (k, v) :: storeSet rest uri document

/-- `documents.delete(uri)`: removes every binding of the key. -/
def storeDelete (store : DocStore) (uri : String) : DocStore :=
  match store with
  | [] => []
  | (k, v) :: rest =>
    if k = uri then storeDelete rest uri else (k, v) :: storeDelete rest uri

/-- One `connection.sendDiagnostics` event: the identifier and the full
replacement diagnostics list. -/
structure PublishedDiagnostics where
  uri : String
  diagnostics : List Diagnostic
deriving Repr, DecidableEq

/-- `onDidOpenTextDocument`: create the snapshot, store it, validate it.
Returns the updated store and the publish events emitted. -/
def onDidOpenTextDocument {Token : Type} (eng : Engine Token) (store : DocStore)
    (uri languageId : String) (version : Int) (text : String) :
    DocStore × List PublishedDiagnostics :=
  let document : TextDocument := ⟨uri, languageId, version, text⟩
  (storeSet store document.uri document, [⟨document.uri, validateDocument eng document.text⟩])

/-- `onDidChangeTextDocument`: if no snapshot is stored under the
identifier the handler does nothing; otherwise it applies the content
changes (the external `TextDocument.update`, passed in as `update`), stores
the new snapshot and validates it. -/
def onDidChangeTextDocument {Token Changes : Type} (eng : Engine Token)
    (update : TextDocument → Changes → Int → TextDocument)
    (store : DocStore) (uri : String) (contentChanges : Changes) (version : Int) :
    DocStore × List PublishedDiagnostics :=
  match storeGet store uri with
  | none => (store, [])
  | some document =>
    let newDocument := update document contentChanges version
    (storeSet store uri newDocument, [⟨newDocument.uri, validateDocument eng newDocument.text⟩])

/-- `onDidCloseTextDocument`: delete the snapshot and publish an empty
diagnostics list for the identifier. -/
def onDidCloseTextDocument (store : DocStore) (uri : String) :
    DocStore × List PublishedDiagnostics :=
  (storeDelete store uri, [⟨uri, []⟩])

/-- A completion candidate of the static keyword table.  The kind is the
LSP numeric code (`CompletionItemKind.Keyword = 14`, `Operator = 24`). -/
structure CompletionItem where
  label : String
  kind : Nat
  detail : String
  documentation : String
deriving Repr, DecidableEq

/-- The static completion table of the server, in source order. -/
def keywords : List CompletionItem :=
  [ ⟨"涵义", 14, "函数定义", "定义函数"⟩,
    ⟨"需知", 14, "参数定义", "声明函数参数"⟩,
    ⟨"求", 14, "返回语句", "函数返回值"⟩,
    ⟨"已知", 14, "函数调用参数", "调用函数时提供的参数，对应函数定义中的需知"⟩,
    ⟨"为", 14, "作为", "指定用途或类型"⟩,
    ⟨"令", 14, "变量声明", "声明变量"⟩,
    ⟨"倘若", 14, "条件判断", "条件判断的开始"⟩,
    ⟨"再若", 14, "否则如果", "条件判断的分支"⟩,
    ⟨"再则", 14, "否则如果", "条件判断的分支"⟩,
    ⟨"否则", 14, "否则", "条件判断的默认分支"⟩,
    ⟨"当", 14, "当条件", "条件触发"⟩,
    ⟨"时复行", 14, "当循环", "当条件满足时循环"⟩,
    ⟨"复行", 14, "重复执行", "重复执行代码块"⟩,
    ⟨"次", 14, "次数", "指定循环次数"⟩,
    ⟨"以", 14, "使用", "使用变量或值"⟩,
    ⟨"是", 24, "等于", "相等比较运算符"⟩,
    ⟨"不是", 24, "不等于", "不等比较运算符"⟩,
    ⟨"胜于", 24, "大于等于", "大于等于比较运算符"⟩,
    ⟨"不及", 24, "小于等于", "小于等于比较运算符"⟩,
    ⟨"且", 24, "逻辑与", "逻辑与运算符"⟩,
    ⟨"并且", 24, "逻辑与", "逻辑与运算符（完整版）"⟩,
    ⟨"或", 24, "逻辑或", "逻辑或运算符"⟩,
    ⟨"或者", 24, "逻辑或", "逻辑或运算符（完整版）"⟩ ]

/-- JavaScript `s.startsWith(search)` over character lists: `search` is a
prefix of `s`. -/
def isPrefixChars (search s : List Char) : Bool :=
  match search, s with
  | [], _ => true
  | _ :: _, [] => false
  | p :: ps, c :: cs => p == c && isPrefixChars ps cs

/-- JavaScript `s.startsWith(search)`. -/
def jsStartsWith (s search : String) : Bool :=
  isPrefixChars search.toList s.toList

/-- JavaScript `s.trim()`: strip whitespace from both ends. -/
def jsTrim (s : String) : String :=
  ⟨((s.toList.dropWhile Char.isWhitespace).reverse.dropWhile Char.isWhitespace).reverse⟩

/-- Split a character list on newline characters (the line structure the
external `TextDocument.getText` exposes). -/
def splitOnNl (cs : List Char) : List (List Char) :=
  match cs with
  | [] => [[]]
  | c :: rest =>
    match splitOnNl rest, c == '\n' with
    | r, true => [] :: r
    | [], false => [[c]]
    | h :: t, false => (c :: h) :: t

/-- The characters of line `line` of a document text (empty when the line
does not exist). -/
def lineChars (text : String) (line : Int) : List Char :=
  (splitOnNl text.toList).getD line.toNat []

/-- `document.getText({start: {line, 0}, end: position})`: the text of the
caret line from its first character up to the caret column. -/
def lineUpTo (document : TextDocument) (pos : Position) : String :=
  ⟨(lineChars document.text pos.line).take pos.character.toNat⟩

/-- `onCompletion`: empty list when the document is unknown; otherwise the
static table filtered by `line.trim() === '' || label.startsWith(line.trim())`.
The store is returned unchanged (the handler never writes to it). -/
def onCompletion (store : DocStore) (uri : String) (pos : Position) :
    DocStore × List CompletionItem :=
  match storeGet store uri with
  | none => (store, [])
  | some document =>
    (store,
      keywords.filter (fun keyword =>
        jsTrim (lineUpTo document pos) == "" ||
        jsStartsWith keyword.label (jsTrim (lineUpTo document pos))))

/-- `onCompletionResolve`: identity pass-through. -/
def onCompletionResolve (item : CompletionItem) : CompletionItem :=
  item

/-- An LSP location, for the definition response. -/
structure Location where
  uri : String
  range : Range
deriving Repr, DecidableEq

/-- `onDefinition`: null when the document is unknown; otherwise the
placeholder range on the caret line. -/
def onDefinition (store : DocStore) (uri : String) (pos : Position) :
    DocStore × Option Location :=
  match storeGet store uri with
  | none => (store, none)
  | some _ =>
    (store, some ⟨uri, ⟨⟨pos.line, 0⟩, ⟨pos.line, 10⟩⟩⟩)

/-- Hover response contents (markup kind plus value). -/
structure HoverContents where
  kind : String
  value : String
deriving Repr, DecidableEq

/-- `onHover`: null when the document is unknown; otherwise the caret
line's text echoed as markdown. -/
def onHover (store : DocStore) (uri : String) (pos : Position) :
    DocStore × Option HoverContents :=
  match storeGet store uri with
  | none => (store, none)
  | some document =>
    (store, some ⟨"markdown", "**当前行内容**\n\n" ++ jsTrim ⟨lineChars document.text pos.line⟩⟩)

/-- A failure carrying no position information at all: a `WenyanError`
without explicit `line` / `column` fields and without `第N行` / `第N列`
markers in its message, or an unstructured failure without markers in its
message. -/
def hasNoPositionInfo (e : ExternalFailure) : Prop :=
  match e with
  | .wenyanError msg line column =>
    line = none ∧ column = none ∧
    matchNum '行' msg = none ∧ matchNum '列' msg = none
  | .other msg =>
    matchNum '行' (msg.getD "") = none ∧ matchNum '列' (msg.getD "") = none

/-- An engine on which both stages succeed. -/
def engSuccess : Engine Unit :=
  { tokenize := fun _ => .ok [], parse := fun _ => .ok () }

/-- An engine raising the structured failure of the spec scenario:
message `unexpected end`, explicit line 1, column 13. -/
def engScenario : Engine Unit :=
  { tokenize := fun _ => .error (.wenyanError "unexpected end" (some 1) (some 13)),
    parse := fun _ => .ok () }

/-- An engine raising a structured failure without explicit fields whose
message embeds the markers `第3行` and `第5列`. -/
def engMarker : Engine Unit :=
  { tokenize := fun _ => .error (.wenyanError "第3行第5列找不到此符" none none),
    parse := fun _ => .ok () }

/-- A concrete stored document, text `倘`. -/
def documentW : TextDocument :=
  ⟨"d1", "wenyan", 1, "倘"⟩

/-- Helper: after `storeDelete`, the key is absent from the store. -/
theorem storeGet_storeDelete (store : DocStore) (uri : String) :
    storeGet (storeDelete store uri) uri = none := by
  induction store with
  | nil => rfl
  | cons kv rest ih =>
    obtain ⟨k, v⟩ := kv
    by_cases hk : k = uri
    · simpa [storeDelete, hk] using ih
    · simpa [storeDelete, storeGet, hk] using ih

/-- C1: for a structured failure with explicit line 1 and column 13, the
claim expects the published range (0,12)–(0,13).  The explicit-field
variant of `validateDocument` publishes (0,12)–(0,14): the end character is
`column + 1`, two columns past the start `column - 1`, not one.  The regex
variant ignores the explicit fields altogether and publishes (0,0)–(0,1)
for this message. -/
theorem c1_explicit_position_scenario :
    validateDocument_v0 engScenario "bad syntax (" =
      [⟨1, ⟨⟨0, 12⟩, ⟨0, 14⟩⟩, "unexpected end", "wenyan-lsp"⟩] ∧
    validateDocument engScenario "bad syntax (" =
      [⟨1, ⟨⟨0, 0⟩, ⟨0, 1⟩⟩, "unexpected end", "wenyan-lsp"⟩] :=
  ⟨rfl, by decide⟩

/-- C2: when the failure's message embeds `第N行` / `第M列` markers, the
published diagnostic's start is the marker values converted to 0-based,
(N−1, M−1), regardless of the explicit fields. -/
theorem c2_marker_recovery {Token : Type} (eng : Engine Token) (text msg : String)
    (lf cf : Option Int) (l c : Nat)
    (he : runEngine eng text = .error (.wenyanError msg lf cf))
    (hl : matchNum '行' msg = some l) (hc : matchNum '列' msg = some c) :
    (validateDocument eng text).map (fun d => d.range.start) =
      [⟨(l : Int) - 1, (c : Int) - 1⟩] := by
  simp [validateDocument, he, translateError_v1, hl, hc]

/-- Witness for C2: marker `第3行` / `第5列` yields start (2, 4). -/
theorem c2_marker_recovery_witness :
    runEngine engMarker "x" = .error (.wenyanError "第3行第5列找不到此符" none none) ∧
    matchNum '行' "第3行第5列找不到此符" = some 3 ∧
    matchNum '列' "第3行第5列找不到此符" = some 5 ∧
    (validateDocument engMarker "x").map (fun d => d.range.start) = [⟨2, 4⟩] :=
  ⟨rfl, by decide, by decide,
    c2_marker_recovery engMarker "x" "第3行第5列找不到此符" none none 3 5 rfl
      (by decide) (by decide)⟩

/-- C3: a failure with neither explicit position fields nor embedded
markers is published with start (0,0) and a one-character-wide range
(0,0)–(0,1), in both translator variants. -/
theorem c3_default_range (e : ExternalFailure) (h : hasNoPositionInfo e) :
    (translateError_v1 e).range = ⟨⟨0, 0⟩, ⟨0, 1⟩⟩ ∧
    (translateError_v0 e).range = ⟨⟨0, 0⟩, ⟨0, 1⟩⟩ := by
  cases e with
  | wenyanError msg line column =>
    obtain ⟨h1, h2, h3, h4⟩ := h
    subst h1 h2
    exact ⟨by simp [translateError_v1, h3, h4],
      by simp [translateError_v0, toZeroBased, jsColumnOrZero]⟩
  | other msg => exact ⟨rfl, rfl⟩

/-- Witness for C3: the failure with message `oops` and no fields. -/
theorem c3_default_range_witness :
    hasNoPositionInfo (.wenyanError "oops" none none) ∧
    ((translateError_v1 (.wenyanError "oops" none none)).range = ⟨⟨0, 0⟩, ⟨0, 1⟩⟩ ∧
      (translateError_v0 (.wenyanError "oops" none none)).range = ⟨⟨0, 0⟩, ⟨0, 1⟩⟩) :=
  ⟨⟨rfl, rfl, by decide, by decide⟩,
    c3_default_range (.wenyanError "oops" none none) ⟨rfl, rfl, by decide, by decide⟩⟩

/-- C4: the claim requires a reported line or column of zero or negative to
clamp to zero after conversion.  Neither variant clamps: a `WenyanError`
with explicit line 0 and column 0 is published with start (−1, −1) by the
explicit-field variant, and a message embedding `第0行` / `第0列` is
published with start (−1, −1) by the regex variant. -/
theorem c4_negative_position_not_clamped :
    (translateError_v0 (.wenyanError "m" (some 0) (some 0))).range.start = ⟨-1, -1⟩ ∧
    (translateError_v1 (.wenyanError "第0行第0列" none none)).range.start = ⟨-1, -1⟩ :=
  ⟨rfl, by decide⟩

/-- C5: when both the tokenize stage and the parse stage succeed,
`validateDocument` publishes the empty diagnostics list, in both
variants. -/
theorem c5_success_publishes_empty {Token : Type} (eng : Engine Token) (text : String)
    (tokens : List Token) (h1 : eng.tokenize text = .ok tokens)
    (h2 : eng.parse tokens = .ok ()) :
    validateDocument eng text = [] ∧ validateDocument_v0 eng text = [] := by
  have hr : runEngine eng text = .ok () := by
    simp [runEngine, h1, h2]
  exact ⟨by simp [validateDocument, hr], by simp [validateDocument_v0, hr]⟩

/-- Witness for C5: the always-succeeding engine. -/
theorem c5_success_publishes_empty_witness :
    engSuccess.tokenize "x" = .ok [] ∧ engSuccess.parse [] = .ok () ∧
    (validateDocument engSuccess "x" = [] ∧ validateDocument_v0 engSuccess "x" = []) :=
  ⟨rfl, rfl, c5_success_publishes_empty engSuccess "x" [] rfl rfl⟩

/-- C6: a Change notification for an identifier with no stored snapshot is
a no-op: the store is unchanged and nothing is published. -/
theorem c6_change_before_open {Token Changes : Type} (eng : Engine Token)
    (update : TextDocument → Changes → Int → TextDocument)
    (store : DocStore) (uri : String) (contentChanges : Changes) (version : Int)
    (h : storeGet store uri = none) :
    onDidChangeTextDocument eng update store uri contentChanges version = (store, []) := by
  simp [onDidChangeTextDocument, h]

/-- Witness for C6: a change on the empty store. -/
theorem c6_change_before_open_witness :
    storeGet ([] : DocStore) "d1" = none ∧
    onDidChangeTextDocument engSuccess (fun d _ _ => d) ([] : DocStore) "d1" () 2 =
      (([] : DocStore), []) :=
  ⟨rfl, c6_change_before_open engSuccess (fun d _ _ => d) [] "d1" () 2 rfl⟩

/-- C7: Close removes the identifier's snapshot from the store and
publishes exactly one empty diagnostics list for it, for every prior store
content (open or not). -/
theorem c7_close_removes_and_clears (store : DocStore) (uri : String) :
    (onDidCloseTextDocument store uri).2 = [⟨uri, []⟩] ∧
    storeGet (onDidCloseTextDocument store uri).1 uri = none :=
  ⟨rfl, storeGet_storeDelete store uri⟩

/-- C8: for a stored document, the completion response is exactly the
static table filtered by case-sensitive label prefix match against the
trimmed line prefix, in table order; an empty trimmed prefix yields the
full table, and when no label matches the response is the empty list. -/
theorem c8_completion_filters_table (store : DocStore) (uri : String) (pos : Position)
    (document : TextDocument) (h : storeGet store uri = some document) :
    (onCompletion store uri pos).2 =
      keywords.filter (fun k => jsStartsWith k.label (jsTrim (lineUpTo document pos))) ∧
    (jsTrim (lineUpTo document pos) = "" → (onCompletion store uri pos).2 = keywords) ∧
    ((∀ k ∈ keywords, jsStartsWith k.label (jsTrim (lineUpTo document pos)) = false) →
      (onCompletion store uri pos).2 = []) := by
  have hmain : (onCompletion store uri pos).2 =
      keywords.filter (fun k => jsStartsWith k.label (jsTrim (lineUpTo document pos))) := by
    simp only [onCompletion, h]
    by_cases hp : jsTrim (lineUpTo document pos) = ""
    · rw [hp]
      decide
    · have hb : (jsTrim (lineUpTo document pos) == "") = false := beq_eq_false_iff_ne.mpr hp
      simp only [hb, Bool.false_or]
  refine ⟨hmain, ?_, ?_⟩
  · intro hp
    rw [hmain, hp]
    decide
  · intro hnone
    rw [hmain]
    exact List.filter_eq_nil_iff.mpr (fun a ha => by simp [hnone a ha])
/-- Witness for C8: store holding the document with text `倘`, caret at
(0,1): the trimmed prefix is `倘`. -/
theorem c8_completion_filters_table_witness :
    storeGet [("d1", documentW)] "d1" = some documentW ∧
    ((onCompletion [("d1", documentW)] "d1" ⟨0, 1⟩).2 =
        keywords.filter (fun k => jsStartsWith k.label (jsTrim (lineUpTo documentW ⟨0, 1⟩))) ∧
      (jsTrim (lineUpTo documentW ⟨0, 1⟩) = "" →
        (onCompletion [("d1", documentW)] "d1" ⟨0, 1⟩).2 = keywords) ∧
      ((∀ k ∈ keywords, jsStartsWith k.label (jsTrim (lineUpTo documentW ⟨0, 1⟩)) = false) →
        (onCompletion [("d1", documentW)] "d1" ⟨0, 1⟩).2 = [])) :=
  ⟨rfl, c8_completion_filters_table [("d1", documentW)] "d1" ⟨0, 1⟩ documentW rfl⟩

/-- C9: completion resolve is the identity on completion items. -/
theorem c9_resolve_identity (item : CompletionItem) :
    onCompletionResolve item = item :=
  rfl

/-- C10: for an identifier with no stored snapshot, completion returns the
empty list, definition and hover return no result, and all three handlers
leave the store unchanged. -/
theorem c10_missing_document_handlers (store : DocStore) (uri : String) (pos : Position)
    (h : storeGet store uri = none) :
    onCompletion store uri pos = (store, []) ∧
    onDefinition store uri pos = (store, none) ∧
    onHover store uri pos = (store, none) := by
  refine ⟨?_, ?_, ?_⟩ <;> simp [onCompletion, onDefinition, onHover, h]

/-- Witness for C10: the empty store. -/
theorem c10_missing_document_handlers_witness :
    storeGet ([] : DocStore) "d1" = none ∧
    (onCompletion ([] : DocStore) "d1" ⟨0, 0⟩ = (([] : DocStore), []) ∧
      onDefinition ([] : DocStore) "d1" ⟨0, 0⟩ = (([] : DocStore), none) ∧
      onHover ([] : DocStore) "d1" ⟨0, 0⟩ = (([] : DocStore), none)) :=
  ⟨rfl, c10_missing_document_handlers [] "d1" ⟨0, 0⟩ rfl⟩

end WenyanLsp
